import Mathlib

/-!
Verification of the mood-ring biosensor backend against its specification.

The development shallowly embeds the two source modules:
* `data_access.py`: vendor-client fetch windows, the session-interval
  expander `timestamp_session_data`, the normalizers `enhance_hr_data` /
  `enhance_session_data`, the aggregator `combine_biosensor_data`, and the
  poller tick of `update_hr_data_periodically` / `update_combined_biosensor_data`;
* `server.py`: the websocket `ConnectionManager` (`broadcast`, `disconnect`)
  and the webhook verification endpoint `verify_oura_webhook`.

Datetimes are modelled as rational numbers of seconds since the epoch
(datetime arithmetic with `timedelta` is exact); ISO rendering of a computed
datetime is modelled as the injective `toString` of that rational.
Python exceptions are modelled with `Except Unit`.
-/

namespace MoodRing

/-- The canonical measurement record (`BiosensorData` in `data_access.py`).
All fields optional, mirroring the pydantic model's `None` defaults.
Values are modelled as rationals. -/
structure BiosensorData where
  timestamp : Option String
  measurement_type : Option String
  measurement_value : Option ℚ
  measurement_unit : Option String
  sensor_mode : Option String
  data_source : Option String
  device_source : Option String
deriving DecidableEq, Repr

/-- A raw heart-rate sample as returned by the vendor heart-rate endpoint:
the fields `enhance_hr_data` reads (`timestamp`, `bpm`, `source`). -/
structure HrRaw where
  timestamp : Option String
  bpm : Option ℚ
  source : Option String
deriving DecidableEq, Repr

/-- Model of `enhance_hr_data`: normalize raw heart-rate samples into
`BiosensorData`. -/
def enhance_hr_data (hr_array : List HrRaw) : List BiosensorData :=
  hr_array.map (fun hr_record =>
    { timestamp := hr_record.timestamp
      measurement_type := some "heartrate"
      measurement_value := hr_record.bpm
      measurement_unit := some "bpm"
      sensor_mode := hr_record.source
      data_source := some "oura"
      device_source := some "oura_ring_4" })

/-- A Session Interval Block: the shape of a session record's
`heart_rate` / `heart_rate_variability` / `motion_count` sub-field.
`timestamp` is the anchor datetime, in seconds since the epoch. -/
structure IntervalBlock where
  interval : ℚ
  items : List ℚ
  timestamp : ℚ
deriving DecidableEq, Repr

/-- One expanded sample: `{field_name: value, 'timestamp': t}` with the
datetime kept numeric. -/
structure TimedSample where
  value : ℚ
  timestamp : ℚ
deriving DecidableEq, Repr

/-- A raw session record, holding the three optional interval-block
sub-fields that `timestamp_session_data` reads.  A `none` sub-field models a
missing or falsy element (skipped by the `if not element: continue` guard). -/
structure Session where
  heart_rate : Option IntervalBlock
  heart_rate_variability : Option IntervalBlock
  motion_count : Option IntervalBlock
deriving DecidableEq, Repr

/-- The `data_arrays` dictionary built by `timestamp_session_data`. -/
structure SessionDataArrays where
  heart_rate_array : List TimedSample
  heart_rate_variability_array : List TimedSample
  motion_count_array : List TimedSample
deriving DecidableEq, Repr

/-- The per-block inner loop of `timestamp_session_data`:
`base_time = timestamp - interval`, and item `i` is stamped
`base_time + i * interval`. -/
def expandBlock (b : IntervalBlock) : List TimedSample :=
  let base_time := b.timestamp - b.interval
  b.items.enum.map (fun p => ⟨p.2, base_time + p.1 * b.interval⟩)

/-- Expansion of one optional sub-field: absent/falsy sub-fields are skipped. -/
def expandField (f : Option IntervalBlock) : List TimedSample :=
  match f with
  | none => []
  | some b => expandBlock b

/-- Model of `timestamp_session_data`: expand every session's present sub-fields,
appending each expansion to its field's array. -/
def timestamp_session_data (session_array : List Session) : SessionDataArrays :=
  session_array.foldl (fun acc s =>
    { heart_rate_array := acc.heart_rate_array ++ expandField s.heart_rate
      heart_rate_variability_array :=
        acc.heart_rate_variability_array ++ expandField s.heart_rate_variability
      motion_count_array := acc.motion_count_array ++ expandField s.motion_count })
    ⟨[], [], []⟩

/-- Model of `enhance_session_data`: normalize the three expanded arrays into
`BiosensorData`, heart-rate first, then variability, then motion.
The computed datetime is rendered to its string form. -/
def enhance_session_data (arrays : SessionDataArrays) : List BiosensorData :=
  (arrays.heart_rate_array.map (fun record =>
    { timestamp := some (toString record.timestamp)
      measurement_type := some "heartrate"
      measurement_value := some record.value
      measurement_unit := some "bpm"
      sensor_mode := some "session"
      data_source := some "oura"
      device_source := some "oura_ring_4" }))
  ++ (arrays.heart_rate_variability_array.map (fun record =>
    { timestamp := some (toString record.timestamp)
      measurement_type := some "heart_rate_variability"
      measurement_value := some record.value
      measurement_unit := some "ms"
      sensor_mode := some "session"
      data_source := some "oura"
      device_source := some "oura_ring_4" }))
  ++ (arrays.motion_count_array.map (fun record =>
    { timestamp := some (toString record.timestamp)
      measurement_type := some "motion_count"
      measurement_value := some record.value
      measurement_unit := some "count"
      sensor_mode := some "session"
      data_source := some "oura"
      device_source := some "oura_ring_4" }))

/-- The sort key of `combine_biosensor_data`: `x.get('timestamp', '')`. -/
def timestampKey (x : BiosensorData) : String :=
  x.timestamp.getD ""

/-- Model of `combine_biosensor_data`: concatenate the two arrays and stably sort
ascending by the timestamp string (Python `list.sort` is stable; `mergeSort`
models it). -/
def combine_biosensor_data (enhanced_hr_array enhanced_session_data : List BiosensorData) :
    List BiosensorData :=
  (enhanced_hr_array ++ enhanced_session_data).mergeSort
    (fun x y => decide (timestampKey x ≤ timestampKey y))

/-- A Live Snapshot slot (`latest_hr_data` / `latest_combined_biosensor_data`):
`{data, last_updated, count}`, initialized empty. -/
structure Snapshot where
  data : List BiosensorData
  last_updated : Option String
  count : ℕ
deriving DecidableEq, Repr

/-- A websocket notification event as passed to `notify_callback`. -/
structure NotifyEvent where
  type : String
  count : ℕ
  count_diff : ℤ
  last_updated : Option String
deriving DecidableEq, Repr

/-- Model of `get_combined_biosensor_data` when called with a pre-fetched `hr_array`
(as the poller does): enhance the heart-rate data, fetch and expand the
session data, and combine.  The session fetch may raise, which propagates. -/
def get_combined_biosensor_data (hr_array : List HrRaw)
    (sessionFetch : Except Unit (List Session)) : Except Unit (List BiosensorData) :=
  match sessionFetch with
  | .error e => .error e
  | .ok session_array =>
      .ok (combine_biosensor_data (enhance_hr_data hr_array)
        (enhance_session_data (timestamp_session_data session_array)))

/-- Model of `update_combined_biosensor_data`: read the previous count from the
combined snapshot, recompute the combined data, replace the snapshot, and
notify when the callback is present and the count changed.  An error in the
underlying fetch propagates before any state is written, so `.error` carries
no new snapshot. -/
def update_combined_biosensor_data (latest_combined : Snapshot) (hr_array : List HrRaw)
    (sessionFetch : Except Unit (List Session)) (hasCallback : Bool) (now : String) :
    Except Unit (Snapshot × List NotifyEvent) :=
  let previous_count := latest_combined.count
  match get_combined_biosensor_data hr_array sessionFetch with
  | .error e => .error e
  | .ok combined_data =>
      let current_count := combined_data.length
      let count_diff : ℤ := (current_count : ℤ) - (previous_count : ℤ)
      let events : List NotifyEvent :=
        if hasCallback ∧ count_diff ≠ 0 then
          [⟨"ouratimeseries_update", current_count, count_diff, some now⟩]
        else []
      .ok (⟨combined_data, some now, current_count⟩, events)

/-- The poller's mutable state across ticks: the `previous_hr_count` local of
`update_hr_data_periodically` plus the two snapshot globals. -/
structure PollerState where
  previous_hr_count : ℕ
  latest_hr : Snapshot
  latest_combined : Snapshot
deriving DecidableEq, Repr

/-- One tick of the `while True` loop of `update_hr_data_periodically`.
Inputs: the current state, the outcome of the heart-rate fetch, the outcome
of the session fetch used by the combined refresh, whether a notify callback
was supplied, and the wall-clock string used for `last_updated`.
Returns the post-tick state and the events delivered to the callback, in
order.  Any exception is caught by the tick's `try`/`except`: on a heart-rate
fetch error nothing has happened yet; on a session fetch error the heart-rate
snapshot was already replaced and the heart-rate event already delivered, and
`previous_hr_count` is left unchanged because the assignment at the end of
the `try` block is skipped. -/
def pollTick (st : PollerState) (hrFetch : Except Unit (List HrRaw))
    (sessionFetch : Except Unit (List Session)) (hasCallback : Bool) (now : String) :
    PollerState × List NotifyEvent :=
  match hrFetch with
  | .error _ => (st, [])
  | .ok hr_data =>
      let enhanced_hr_data := enhance_hr_data hr_data
      let current_hr_count := enhanced_hr_data.length
      let hr_count_diff : ℤ := (current_hr_count : ℤ) - (st.previous_hr_count : ℤ)
      let latest_hr' : Snapshot := ⟨enhanced_hr_data, some now, current_hr_count⟩
      let hrEvents : List NotifyEvent :=
        if hasCallback ∧ hr_count_diff ≠ 0 then
          [⟨"heartrate_update", current_hr_count, hr_count_diff, some now⟩]
        else []
      match update_combined_biosensor_data st.latest_combined hr_data sessionFetch
          hasCallback now with
      | .error _ =>
          ({ st with latest_hr := latest_hr' }, hrEvents)
      | .ok (combinedSnap, cEvents) =>
          (⟨current_hr_count, latest_hr', combinedSnap⟩, hrEvents ++ cEvents)

/-- Model of `ConnectionManager.broadcast` (`server.py`).  Connections are identified
by naturals; `sendFails` says which deliveries raise.  The loop sends to each
connection in order, collecting failures in `disconnected`; after the pass it
removes each failed connection from `active_connections` with `list.remove`
(first occurrence).  Returns the connections that received the message and
the post-broadcast `active_connections`. -/
def broadcast (active_connections : List ℕ) (sendFails : ℕ → Bool) :
    List ℕ × List ℕ :=
  let delivered := active_connections.filter (fun c => !sendFails c)
  let disconnected := active_connections.filter sendFails
  (delivered, disconnected.foldl (fun conns c => conns.erase c) active_connections)

/-- Model of `ConnectionManager.disconnect`:
`self.active_connections.remove(websocket)`.
Python `list.remove` deletes the first occurrence and raises `ValueError`
when the element is absent. -/
def disconnect (active_connections : List ℕ) (websocket : ℕ) :
    Except Unit (List ℕ) :=
  if websocket ∈ active_connections then .ok (active_connections.erase websocket)
  else .error ()

/-- The two possible responses of the webhook verification endpoint. -/
inductive VerifyResponse where
  | challengeResponse (challenge : Option String)
  | unauthorized
deriving DecidableEq, Repr

/-- Model of `verify_oura_webhook` (`server.py`): compare the supplied
`verification_token` query parameter with the configured token and either
echo the challenge or reject with 401.  `none` models a missing query
parameter or an unset environment variable. -/
def verify_oura_webhook (expected_token verification_token challenge : Option String) :
    VerifyResponse :=
  if verification_token = expected_token then .challengeResponse challenge
  else .unauthorized

/-- Datetimes for the fetch windows, in seconds since the epoch. -/
def secondsPerDay : ℤ := 86400

set_option linter.unusedVariables false in
/-- The effective heart-rate window of `get_hr_data`.  `import_time` is the
clock when `data_access.py` was imported (the module-level globals
`oura_start_datetime` / `oura_end_datetime` are computed then, once);
`call_time` is the clock at the moment of the call — the code never reads
it, which the definition makes explicit by ignoring it. -/
def get_hr_data_window (import_time : ℤ) (call_time : ℤ)
    (start_datetime end_datetime : Option ℤ) : ℤ × ℤ :=
  (start_datetime.getD (import_time - secondsPerDay), end_datetime.getD import_time)

set_option linter.unusedVariables false in
/-- The effective session window of `get_initial_session_data`, at day
granularity (`oura_start_date` / `oura_end_date`): same import-time globals,
same ignored `call_date`. -/
def get_initial_session_data_window (import_date : ℤ) (call_date : ℤ)
    (start_date end_date : Option ℤ) : ℤ × ℤ :=
  (start_date.getD (import_date - 1), end_date.getD import_date)

/-- A JSON value, for the response-body handling of the two fetches. -/
inductive JVal where
  | null
  | num (q : ℚ)
  | str (s : String)
  | arr (elems : List JVal)
  | obj (fields : List (String × JVal))

/-- The body handling shared by `get_hr_data` and `get_initial_session_data`:
`response.json().get('data', [])`.  `none` models an unparsable body, on
which `.json()` raises `JSONDecodeError`; a parsed non-object raises
`AttributeError` at `.get`; a parsed object yields its `data` member or the
default empty array. -/
def extract_data_field (body : Option JVal) : Except Unit JVal :=
  match body with
  | none => .error ()
  | some (JVal.obj fields) => .ok ((fields.lookup "data").getD (JVal.arr []))
  | some _ => .error ()

/-! ## Theorems -/

/-- The expansion property claimed for one sub-field: as many samples as
`items`, sample `i` (0-based) stamped `anchor + (i-1)·interval`, consecutive
samples `interval` apart, and sample index 1 exactly on the anchor. -/
def expandedCorrectly (b : IntervalBlock) (arr : List TimedSample) : Prop :=
  arr.length = b.items.length ∧
  (∀ i (h : i < arr.length),
    (arr.get ⟨i, h⟩).timestamp = b.timestamp + ((i : ℚ) - 1) * b.interval) ∧
  (∀ i (h : i + 1 < arr.length),
    (arr.get ⟨i + 1, h⟩).timestamp - (arr.get ⟨i, Nat.lt_of_succ_lt h⟩).timestamp
      = b.interval) ∧
  (∀ h : 1 < arr.length, (arr.get ⟨1, h⟩).timestamp = b.timestamp)

lemma expandBlock_length (b : IntervalBlock) :
    (expandBlock b).length = b.items.length := by
  simp [expandBlock]

lemma expandBlock_get_timestamp (b : IntervalBlock) (i : ℕ)
    (h : i < (expandBlock b).length) :
    ((expandBlock b).get ⟨i, h⟩).timestamp = b.timestamp + ((i : ℚ) - 1) * b.interval := by
  have hi : i < b.items.length := by simpa [expandBlock] using h
  simp only [expandBlock, List.get_eq_getElem, List.getElem_map, List.getElem_enum]
  ring

lemma expandBlock_correct (b : IntervalBlock) :
    expandedCorrectly b (expandBlock b) := by
  refine ⟨expandBlock_length b, expandBlock_get_timestamp b, ?_, ?_⟩
  · intro i h
    rw [expandBlock_get_timestamp b (i + 1) h,
      expandBlock_get_timestamp b i (Nat.lt_of_succ_lt h)]
    push_cast
    ring
  · intro h
    rw [expandBlock_get_timestamp b 1 h]
    ring

lemma timestamp_session_data_singleton (s : Session) :
    timestamp_session_data [s] =
      ⟨expandField s.heart_rate, expandField s.heart_rate_variability,
        expandField s.motion_count⟩ := by
  simp [timestamp_session_data]

/-- C1: for every session record whose `heart_rate`,
`heart_rate_variability` or `motion_count` sub-field is a present Session
Interval Block, the expander produces exactly `len(items)` samples for that
sub-field, sample `i` (0-based) stamped `anchor + (i-1)·interval` seconds,
so consecutive samples are exactly `interval` apart and sample index 1 falls
exactly on the anchor timestamp. -/
theorem C1_session_expander (s : Session) (b : IntervalBlock) :
    (s.heart_rate = some b →
      expandedCorrectly b (timestamp_session_data [s]).heart_rate_array) ∧
    (s.heart_rate_variability = some b →
      expandedCorrectly b (timestamp_session_data [s]).heart_rate_variability_array) ∧
    (s.motion_count = some b →
      expandedCorrectly b (timestamp_session_data [s]).motion_count_array) := by
  rw [timestamp_session_data_singleton]
  refine ⟨fun h => ?_, fun h => ?_, fun h => ?_⟩ <;>
    simp only [h, expandField] <;> exact expandBlock_correct b

/-- Witness for C1 at a concrete session: one block of three samples at
5-second interval anchored at time 1000, present in all three sub-fields. -/
theorem C1_session_expander_witness :
    expandedCorrectly ⟨5, [60, 62, 61], 1000⟩
      (timestamp_session_data
        [⟨some ⟨5, [60, 62, 61], 1000⟩, some ⟨5, [60, 62, 61], 1000⟩,
          some ⟨5, [60, 62, 61], 1000⟩⟩]).heart_rate_array ∧
    expandedCorrectly ⟨5, [60, 62, 61], 1000⟩
      (timestamp_session_data
        [⟨some ⟨5, [60, 62, 61], 1000⟩, some ⟨5, [60, 62, 61], 1000⟩,
          some ⟨5, [60, 62, 61], 1000⟩⟩]).heart_rate_variability_array ∧
    expandedCorrectly ⟨5, [60, 62, 61], 1000⟩
      (timestamp_session_data
        [⟨some ⟨5, [60, 62, 61], 1000⟩, some ⟨5, [60, 62, 61], 1000⟩,
          some ⟨5, [60, 62, 61], 1000⟩⟩]).motion_count_array :=
  ⟨(C1_session_expander _ _).1 rfl, (C1_session_expander _ _).2.1 rfl,
    (C1_session_expander _ _).2.2 rfl⟩

lemma timestampKey_le_trans (x y z : BiosensorData)
    (hxy : decide (timestampKey x ≤ timestampKey y) = true)
    (hyz : decide (timestampKey y ≤ timestampKey z) = true) :
    decide (timestampKey x ≤ timestampKey z) = true := by
  simp only [decide_eq_true_eq] at *
  exact le_trans hxy hyz

lemma timestampKey_le_total (x y : BiosensorData) :
    (decide (timestampKey x ≤ timestampKey y)
      || decide (timestampKey y ≤ timestampKey x)) = true := by
  simp only [Bool.or_eq_true, decide_eq_true_eq]
  exact le_total _ _

lemma combine_perm_append (A B : List BiosensorData) :
    List.Perm (combine_biosensor_data A B) (A ++ B) :=
  List.mergeSort_perm (A ++ B) _

/-- C2: `combine` returns a sequence non-decreasing by timestamp string
whose multiset is exactly `A ++ B`; it is input-order independent as a
multiset; `combine([],[])` is empty; and `combine(A,[])` is a permutation
of `A` (reordered by timestamp only). -/
theorem C2_combine_spec (A B : List BiosensorData) :
    (combine_biosensor_data A B).Pairwise
      (fun x y => timestampKey x ≤ timestampKey y) ∧
    (combine_biosensor_data A B : Multiset BiosensorData) =
      ((A ++ B : List BiosensorData) : Multiset BiosensorData) ∧
    (combine_biosensor_data A B : Multiset BiosensorData) =
      (combine_biosensor_data B A : Multiset BiosensorData) ∧
    combine_biosensor_data ([] : List BiosensorData) [] = [] ∧
    List.Perm (combine_biosensor_data A []) A := by
  refine ⟨?_, ?_, ?_, ?_, ?_⟩
  · have hs := List.sorted_mergeSort
      timestampKey_le_trans timestampKey_le_total (A ++ B)
    exact hs.imp (fun h => of_decide_eq_true h)
  · exact Multiset.coe_eq_coe.mpr (combine_perm_append A B)
  · refine Multiset.coe_eq_coe.mpr ?_
    exact (combine_perm_append A B).trans
      ((List.perm_append_comm).trans (combine_perm_append B A).symm)
  · simp [combine_biosensor_data]
  · have h := combine_perm_append A []
    simpa using h

/-- C3: on a tick where both fetches succeed and a callback is wired, the
heart-rate notification fires exactly when the new heart-rate count differs
from the previous tick's, carrying `count_diff = new - previous`, and the
combined-snapshot notification obeys the same rule against the combined
snapshot's previous count. -/
theorem C3_notify_iff_count_changed (st : PollerState) (hr : List HrRaw)
    (sessions : List Session) (now : String) :
    (pollTick st (.ok hr) (.ok sessions) true now).2 =
      (if (enhance_hr_data hr).length = st.previous_hr_count then []
       else [⟨"heartrate_update", (enhance_hr_data hr).length,
         ((enhance_hr_data hr).length : ℤ) - (st.previous_hr_count : ℤ), some now⟩]) ++
      (if (combine_biosensor_data (enhance_hr_data hr)
             (enhance_session_data (timestamp_session_data sessions))).length
           = st.latest_combined.count then []
       else [⟨"ouratimeseries_update",
         (combine_biosensor_data (enhance_hr_data hr)
           (enhance_session_data (timestamp_session_data sessions))).length,
         ((combine_biosensor_data (enhance_hr_data hr)
           (enhance_session_data (timestamp_session_data sessions))).length : ℤ)
           - (st.latest_combined.count : ℤ), some now⟩]) := by
  simp only [pollTick, update_combined_biosensor_data, get_combined_biosensor_data,
    true_and]
  congr 1 <;> split_ifs with h h' <;> first | rfl | omega

/-- Counterexample to C4: a tick whose heart-rate fetch succeeds (one
record) but whose session fetch raises does NOT leave both snapshots at
their pre-tick values — the heart-rate snapshot has already been replaced
(count 0 → 1) when the exception reaches the tick's `except`. -/
theorem C4_counterexample :
    ((pollTick ⟨0, ⟨[], none, 0⟩, ⟨[], none, 0⟩⟩
        (.ok [⟨some "2025-01-01T00:00:00Z", some 60, some "awake"⟩])
        (.error ()) true "T").1).latest_hr ≠
      (⟨0, ⟨[], none, 0⟩, ⟨[], none, 0⟩⟩ : PollerState).latest_hr := by
  decide

/-- C4 as amended: an error in the heart-rate fetch leaves the whole state
untouched and emits nothing; an error in the combined refresh (session
fetch) leaves the combined snapshot and `previous_hr_count` untouched, but
the heart-rate snapshot has already been replaced with the freshly fetched
data.  Either way the loop continues (the tick returns normally). -/
theorem C4_error_tick (st : PollerState) (sessionFetch : Except Unit (List Session))
    (cb : Bool) (now : String) :
    (∀ hrFetch : Except Unit (List HrRaw), hrFetch = .error () →
      pollTick st hrFetch sessionFetch cb now = (st, [])) ∧
    (∀ hr : List HrRaw, sessionFetch = .error () →
      (pollTick st (.ok hr) sessionFetch cb now).1.latest_combined = st.latest_combined ∧
      (pollTick st (.ok hr) sessionFetch cb now).1.previous_hr_count
        = st.previous_hr_count ∧
      (pollTick st (.ok hr) sessionFetch cb now).1.latest_hr
        = ⟨enhance_hr_data hr, some now, (enhance_hr_data hr).length⟩) := by
  constructor
  · rintro hrFetch rfl
    rfl
  · rintro hr rfl
    exact ⟨rfl, rfl, rfl⟩

/-- Witness for C4 as amended, at a concrete state and concrete fetch
outcomes. -/
theorem C4_error_tick_witness :
    pollTick ⟨3, ⟨[], none, 3⟩, ⟨[], none, 7⟩⟩ (.error ()) (.error ()) true "T"
      = (⟨3, ⟨[], none, 3⟩, ⟨[], none, 7⟩⟩, []) ∧
    (pollTick ⟨3, ⟨[], none, 3⟩, ⟨[], none, 7⟩⟩
        (.ok [⟨some "t0", some 61, some "awake"⟩]) (.error ()) true "T").1.latest_combined
      = (⟨[], none, 7⟩ : Snapshot) :=
  ⟨(C4_error_tick ⟨3, ⟨[], none, 3⟩, ⟨[], none, 7⟩⟩ (.error ()) true "T").1
      (.error ()) rfl,
    ((C4_error_tick ⟨3, ⟨[], none, 3⟩, ⟨[], none, 7⟩⟩ (.error ()) true "T").2
      [⟨some "t0", some 61, some "awake"⟩] rfl).1⟩

lemma foldl_erase_cons_of_ne (a : ℕ) (l ds : List ℕ) (hne : ∀ c ∈ ds, c ≠ a) :
    ds.foldl (fun acc c => acc.erase c) (a :: l)
      = a :: ds.foldl (fun acc c => acc.erase c) l := by
  induction ds generalizing l with
  | nil => rfl
  | cons d ds ih =>
      have hda : d ≠ a := hne d (List.mem_cons_self d ds)
      simp only [List.foldl_cons]
      rw [List.erase_cons_tail (by simpa using Ne.symm hda)]
      exact ih (l.erase d) (fun c hc => hne c (List.mem_cons_of_mem d hc))

lemma foldl_erase_filter (l : List ℕ) (p : ℕ → Bool) (hnd : l.Nodup) :
    (l.filter p).foldl (fun acc c => acc.erase c) l = l.filter (fun c => !p c) := by
  induction l with
  | nil => rfl
  | cons a t ih =>
      rw [List.nodup_cons] at hnd
      by_cases hpa : p a
      · rw [List.filter_cons_of_pos hpa, List.foldl_cons, List.erase_cons_head,
          List.filter_cons_of_neg (by simp [hpa]), ih hnd.2]
      · rw [List.filter_cons_of_neg hpa,
          foldl_erase_cons_of_ne a t (t.filter p)
            (fun c hc => fun hca => hnd.1 (hca ▸ (List.mem_filter.mp hc).1)),
          ih hnd.2, List.filter_cons_of_pos (by simp [hpa])]

/-- C5: with a duplicate-free subscriber list, `broadcast` delivers the
event to exactly the subscribers whose send does not fail (in order, the
whole pass running before any removal), and afterwards the subscriber list
is the original minus exactly the failed subscribers. -/
theorem C5_broadcast_spec (conns : List ℕ) (sendFails : ℕ → Bool)
    (hnd : conns.Nodup) :
    (broadcast conns sendFails).1 = conns.filter (fun c => !sendFails c) ∧
    (broadcast conns sendFails).2 = conns.filter (fun c => !sendFails c) := by
  exact ⟨rfl, foldl_erase_filter conns sendFails hnd⟩

/-- Witness for C5: three subscribers of which subscriber 1 fails — the
other two receive the event and the failed one is gone from the set. -/
theorem C5_broadcast_spec_witness :
    broadcast [0, 1, 2] (fun c => c == 1) = ([0, 2], [0, 2]) := by
  have h := C5_broadcast_spec [0, 1, 2] (fun c => c == 1) (by decide)
  have h1 : (broadcast [0, 1, 2] (fun c => c == 1)).1 = [0, 2] := by
    rw [h.1]; decide
  have h2 : (broadcast [0, 1, 2] (fun c => c == 1)).2 = [0, 2] := by
    rw [h.2]; decide
  exact Prod.ext h1 h2

/-- Counterexample to C6: two default-window calls at different clock times
(100 and 200 seconds after an import at time 0) use the SAME default window
— the module-level defaults are computed once at import, not per call. -/
theorem C6_counterexample :
    get_hr_data_window 0 100 none none = get_hr_data_window 0 200 none none ∧
    get_initial_session_data_window 0 10 none none
      = get_initial_session_data_window 0 20 none none ∧
    (100 : ℤ) ≠ 200 := by
  decide

/-- C6 as amended: the default window is `[import − 1 day, import]`,
computed once when the module is imported; every call made without an
explicit window reuses it unchanged, whatever the clock reads at call
time. -/
theorem C6_default_window_cached (import_time import_date t u d e : ℤ) :
    get_hr_data_window import_time t none none
      = (import_time - secondsPerDay, import_time) ∧
    get_hr_data_window import_time t none none
      = get_hr_data_window import_time u none none ∧
    get_initial_session_data_window import_date d none none
      = (import_date - 1, import_date) ∧
    get_initial_session_data_window import_date d none none
      = get_initial_session_data_window import_date e none none :=
  ⟨rfl, rfl, rfl, rfl⟩

/-- Counterexample to C7: an unparsable response body makes the fetch raise
(`response.json()` raises `JSONDecodeError`); it does not return an empty
result. -/
theorem C7_counterexample :
    extract_data_field none = .error () ∧
    extract_data_field none ≠ .ok (JVal.arr []) :=
  ⟨rfl, fun h => Except.noConfusion h⟩

/-- C7 as amended: a parsed response object lacking the `data` key degrades
to the empty array, but an unparsable body — or a parsed body that is not
an object — raises to the caller. -/
theorem C7_missing_data_key_degrades (fields : List (String × JVal)) (s : String) :
    (fields.lookup "data" = none →
      extract_data_field (some (JVal.obj fields)) = .ok (JVal.arr [])) ∧
    extract_data_field none = .error () ∧
    extract_data_field (some (JVal.str s)) = .error () := by
  refine ⟨fun h => ?_, rfl, rfl⟩
  simp [extract_data_field, h]

/-- Witness for C7 as amended: a parsed object with no `data` member. -/
theorem C7_missing_data_key_degrades_witness :
    extract_data_field (some (JVal.obj [("status", JVal.str "ok")]))
      = .ok (JVal.arr []) :=
  (C7_missing_data_key_degrades [("status", JVal.str "ok")] "x").1 rfl

/-- C8: webhook verification succeeds — echoing the challenge verbatim —
exactly when the supplied token equals the configured secret, and rejects
with an authorization failure otherwise. -/
theorem C8_verify_spec (expected supplied challenge : Option String) :
    (verify_oura_webhook expected supplied challenge
        = .challengeResponse challenge ↔ supplied = expected) ∧
    (supplied ≠ expected →
      verify_oura_webhook expected supplied challenge = .unauthorized) := by
  constructor
  · constructor
    · intro h
      by_contra hne
      simp [verify_oura_webhook, hne] at h
    · intro h
      simp [verify_oura_webhook, h]
  · intro h
    simp [verify_oura_webhook, h]

/-- Witness for C8 at the spec's example: secret `"X"`, matching token
echoes `"c1"`, token `"Y"` is rejected. -/
theorem C8_verify_spec_witness :
    verify_oura_webhook (some "X") (some "X") (some "c1")
      = .challengeResponse (some "c1") ∧
    verify_oura_webhook (some "X") (some "Y") (some "c1") = .unauthorized :=
  ⟨(C8_verify_spec (some "X") (some "X") (some "c1")).1.mpr rfl,
    (C8_verify_spec (some "X") (some "Y") (some "c1")).2 (by decide)⟩

/-- Counterexample to C9: `disconnect` is not idempotent — removing a
subscriber that is present succeeds, but a second `disconnect` of the same
(now absent) subscriber raises `ValueError` instead of leaving the empty
set unchanged. -/
theorem C9_counterexample :
    disconnect [0] 0 = .ok [] ∧ disconnect [] 0 = .error () :=
  ⟨rfl, rfl⟩

/-- C9 as amended: `disconnect` removes the first occurrence of a present
subscriber; disconnecting a subscriber that is not in the set raises
`ValueError` (so the call is not idempotent). -/
theorem C9_disconnect_spec (conns : List ℕ) (c : ℕ) :
    (c ∈ conns → disconnect conns c = .ok (conns.erase c)) ∧
    (c ∉ conns → disconnect conns c = .error ()) := by
  constructor
  · intro h
    simp [disconnect, h]
  · intro h
    simp [disconnect, h]

/-- Witness for C9 as amended. -/
theorem C9_disconnect_spec_witness :
    disconnect [5, 7] 7 = .ok [5] ∧ disconnect [5] 7 = .error () :=
  ⟨(C9_disconnect_spec [5, 7] 7).1 (by decide),
    (C9_disconnect_spec [5] 7).2 (by decide)⟩

/-- C10: with no configured secret (environment variable unset) and no
supplied `verification_token`, the equality check compares `None` with
`None` and the endpoint responds with success, echoing the request's
challenge (possibly itself absent) — verification never fails in that
state. -/
theorem C10_no_secret_no_token_succeeds (challenge : Option String) :
    verify_oura_webhook none none challenge = .challengeResponse challenge :=
  rfl

end MoodRing
